import Mathlib

/-!
Shallow embedding of the mono-repo-test services (Go):
two HTTP services, "api" (src/svc/api/main.go, with an earlier variant in
src/unnamed/part_001) and "worker" (worker.Run in src/pkg/shared/response.go,
plus a standalone worker main in the same file).  Each service keeps a
readiness flag and a forced-failure flag (atomic booleans); the api service
additionally keeps an in-flight request counter (atomic int64).

shared.JSON (src/pkg/shared/response.go) serialises a Response struct with
fields service, status, port, timestamp, message (message omitted when empty).
The timestamp field is read from the wall clock at encode time and is excluded
from this model; no claim constrains it.
-/

namespace MonoRepo

/-- A JSON value, for the parsed principal of GET /protected. -/
inductive Json where
  | null
  | bool (b : Bool)
  | num (n : Int)
  | str (s : String)
  | arr (elems : List Json)
  | obj (fields : List (String × Json))

/-- An incoming HTTP request: method, header list, body.  The Go handlers
receive `*http.Request`; only the X-Unkey-Principal header is ever read. -/
structure Request where
  method : String
  headers : List (String × String)
  body : String
deriving DecidableEq

/-- Go's `r.Header.Get(k)`: the header value, or the empty string when the
header is absent. -/
def Request.getHeader (r : Request) (k : String) : String :=
  match r.headers.lookup k with
  | some v => v
  | none => ""

/-- A JSON response as the services emit it: the HTTP status code plus the
body fields of shared.Response (timestamp excluded, see file header).
The authenticated branch of GET /protected writes its own JSON object with a
"principal" key instead of a message; the extra field models that key
(none everywhere else). -/
structure Resp where
  service : String
  httpStatus : Nat
  status : String
  port : String
  message : String
  principal : Option Json

/-- api state: `ready`, `forceFail`, `inflight` of src/svc/api/main.go. -/
structure ApiState where
  ready : Bool
  forceFail : Bool
  inflight : Int
deriving DecidableEq

/-- worker state: `ready`, `forceFail` of worker.Run. -/
structure WorkerState where
  ready : Bool
  forceFail : Bool
deriving DecidableEq

/-- Port resolution of the api service (src/svc/api/main.go lines 21-24):
PORT env var, defaulting to "3456" when empty. -/
def apiPort (envPORT : String) : String :=
  if envPORT = "" then "3456" else envPORT

/-- Port resolution of the worker service (worker.Run lines 157-160):
PORT env var, defaulting to "9090" when empty. -/
def workerPort (envPORT : String) : String :=
  if envPORT = "" then "9090" else envPORT

/-- healthzHandler of the api service (src/svc/api/main.go lines 80-104).
The request is taken but never inspected. -/
def apiHealthz (port : String) (ready forceFail : Bool) (r : Request) : Resp :=
  if !ready then
    { service := "api", httpStatus := 503, status := "not_ready", port := port
      message := "still starting up", principal := none }
  else if forceFail then
    { service := "api", httpStatus := 503, status := "unhealthy", port := port
      message := "health manually toggled to fail", principal := none }
  else
    { service := "api", httpStatus := 200, status := "healthy", port := port
      message := "", principal := none }

/-- GET /healthz handler of worker.Run (src/pkg/shared/response.go lines
198-222).  The request is taken but never inspected. -/
def workerHealthz (port : String) (ready forceFail : Bool) (r : Request) : Resp :=
  if !ready then
    { service := "worker", httpStatus := 503, status := "not_ready", port := port
      message := "still warming up", principal := none }
  else if forceFail then
    { service := "worker", httpStatus := 503, status := "unhealthy", port := port
      message := "health manually toggled to fail", principal := none }
  else
    { service := "worker", httpStatus := 200, status := "healthy", port := port
      message := "", principal := none }

/-- The (method, pattern) route table registered on the api mux
(src/svc/api/main.go lines 67-246), in registration order. -/
def apiRoutes : List (String × String) :=
  [("GET", "/"), ("GET", "/healthz"), ("POST", "/healthz"),
   ("POST", "/healthz/fail"), ("POST", "/healthz/recover"),
   ("GET", "/slow"), ("GET", "/protected"), ("GET", "/env"), ("GET", "/probe")]

/-- The (method, pattern) route table registered on the worker.Run mux
(src/pkg/shared/response.go lines 196-292), in registration order. -/
def workerRoutes : List (String × String) :=
  [("GET", "/healthz"), ("POST", "/healthz/fail"), ("POST", "/healthz/recover"),
   ("GET", "/"), ("GET", "/probe")]

/-- POST /healthz/fail handler of the api (src/svc/api/main.go lines 109-118):
stores true into forceFail and responds 200 "ok". -/
def apiHealthzFail (port : String) (s : ApiState) : ApiState × Resp :=
  ({ s with forceFail := true },
   { service := "api", httpStatus := 200, status := "ok", port := port
     message := "healthcheck will now fail — liveness probe should restart this container"
     principal := none })

/-- POST /healthz/recover handler of the api (src/svc/api/main.go lines
121-130): stores false into forceFail and responds 200 "ok". -/
def apiHealthzRecover (port : String) (s : ApiState) : ApiState × Resp :=
  ({ s with forceFail := false },
   { service := "api", httpStatus := 200, status := "ok", port := port
     message := "healthcheck will now pass again", principal := none })

/-- POST /healthz/fail handler of worker.Run (src/pkg/shared/response.go
lines 224-233). -/
def workerHealthzFail (port : String) (s : WorkerState) : WorkerState × Resp :=
  ({ s with forceFail := true },
   { service := "worker", httpStatus := 200, status := "ok", port := port
     message := "healthcheck will now fail", principal := none })

/-- POST /healthz/recover handler of worker.Run (src/pkg/shared/response.go
lines 235-244). -/
def workerHealthzRecover (port : String) (s : WorkerState) : WorkerState × Resp :=
  ({ s with forceFail := false },
   { service := "worker", httpStatus := 200, status := "ok", port := port
     message := "healthcheck will now pass", principal := none })

/-- GET / handler of the api (src/svc/api/main.go lines 67-77).  randVal
models the rand.Intn(10000) draw; the in-flight figure printed is the value
after the handler incremented the counter. -/
def apiRoot (port : String) (s : ApiState) (randVal : Int) : Resp :=
  { service := "api", httpStatus := 200, status := "ok", port := port
    message := "request #" ++ toString randVal ++ " | in-flight: " ++ toString (s.inflight + 1)
    principal := none }

/-- GET /slow handler of the api (src/svc/api/main.go lines 133-146), after
its 5-second sleep. -/
def apiSlow (port : String) : Resp :=
  { service := "api", httpStatus := 200, status := "ok", port := port
    message := "slow request completed after 5s", principal := none }

/-- GET / handler of worker.Run (src/pkg/shared/response.go lines 246-253). -/
def workerRoot (port : String) : Resp :=
  { service := "worker", httpStatus := 200, status := "ok", port := port
    message := "background worker running", principal := none }

/-- GET /protected handler of the api (src/svc/api/main.go lines 149-190).
unmarshalObj models json.Unmarshal of the header into map[string]any: some
fields on success, none on error.  On success the handler writes its own JSON
object (service, status "authenticated", port, principal) without shared.JSON. -/
def apiProtected (port : String)
    (unmarshalObj : String → Option (List (String × Json))) (r : Request) : Resp :=
  let principal := r.getHeader "X-Unkey-Principal"
  if principal = "" then
    { service := "api", httpStatus := 401, status := "unauthorized", port := port
      message := "missing X-Unkey-Principal header — sentinel middleware not configured?"
      principal := none }
  else
    match unmarshalObj principal with
    | none =>
        { service := "api", httpStatus := 200, status := "ok", port := port
          message := "principal (raw): " ++ principal, principal := none }
    | some fields =>
        { service := "api", httpStatus := 200, status := "authenticated", port := port
          message := "", principal := some (Json.obj fields) }

/-- GET /probe handler of the api (src/svc/api/main.go lines 212-246).
net models client.Get: the error string, or the HTTP status code of the
response.  The handler calls it on WORKER_URL ++ "/healthz". -/
def apiProbe (port workerURL : String) (net : String → Except String Nat) : Resp :=
  if workerURL = "" then
    { service := "api", httpStatus := 200, status := "skipped", port := port
      message := "WORKER_URL not set — set it to the worker\x27s internal address to test network isolation"
      principal := none }
  else
    match net (workerURL ++ "/healthz") with
    | .error e =>
        { service := "api", httpStatus := 200, status := "isolated", port := port
          message := "cannot reach worker at " ++ workerURL ++ ": " ++ e ++ " — network isolation is working"
          principal := none }
    | .ok code =>
        { service := "api", httpStatus := 200, status := "NOT_ISOLATED", port := port
          message := "reached worker at " ++ workerURL ++ " — got HTTP " ++ toString code ++ " — network isolation is BROKEN"
          principal := none }

/-- GET /probe handler of worker.Run (src/pkg/shared/response.go lines
258-292), probing API_URL ++ "/healthz". -/
def workerProbe (port apiURL : String) (net : String → Except String Nat) : Resp :=
  if apiURL = "" then
    { service := "worker", httpStatus := 200, status := "skipped", port := port
      message := "API_URL not set — set it to the api\x27s internal address to test network isolation"
      principal := none }
  else
    match net (apiURL ++ "/healthz") with
    | .error e =>
        { service := "worker", httpStatus := 200, status := "isolated", port := port
          message := "cannot reach api at " ++ apiURL ++ ": " ++ e ++ " — network isolation is working"
          principal := none }
    | .ok code =>
        { service := "worker", httpStatus := 200, status := "NOT_ISOLATED", port := port
          message := "reached api at " ++ apiURL ++ " — got HTTP " ++ toString code ++ " — network isolation is BROKEN"
          principal := none }

/-- The eight distinct handler functions of the api service
(src/svc/api/main.go); /healthz is one handler registered under two routes.
GET /protected is spelled protectedRoute (protected is a Lean keyword). -/
inductive ApiH where
  | root
  | healthz
  | healthzFail
  | healthzRecover
  | slow
  | protectedRoute
  | env
  | probe
deriving DecidableEq

/-- The five handler functions of worker.Run
(src/pkg/shared/response.go lines 196-292). -/
inductive WorkerH where
  | healthz
  | healthzFail
  | healthzRecover
  | root
  | probe
deriving DecidableEq

/-- All api handlers, in registration order (src/svc/api/main.go). -/
def apiHandlers : List ApiH :=
  [.root, .healthz, .healthzFail, .healthzRecover, .slow, .protectedRoute, .env, .probe]

/-- Whether an api handler brackets its body with inflight.Add(1) /
defer inflight.Add(-1): GET / (line 68), GET /slow (line 134) and
GET /protected (line 150) do; no other handler mentions the counter. -/
def ApiH.touchesInflight : ApiH → Bool
  | .root => true
  | .slow => true
  | .protectedRoute => true
  | _ => false

/-- The five handlers of the earlier api variant in src/unnamed/part_001
(no /protected, /env or /probe). -/
inductive ApiV0H where
  | root
  | healthz
  | healthzFail
  | healthzRecover
  | slow
deriving DecidableEq

/-- All handlers of the src/unnamed/part_001 variant. -/
def apiV0Handlers : List ApiV0H :=
  [.root, .healthz, .healthzFail, .healthzRecover, .slow]

/-- In src/unnamed/part_001 only GET / (line 65) and GET /slow (line 131)
touch the inflight counter. -/
def ApiV0H.touchesInflight : ApiV0H → Bool
  | .root => true
  | .slow => true
  | _ => false

/-- inflight.Add(1) on handler entry (identity for handlers that do not touch
the counter). -/
def inflightOnEntry (h : ApiH) (c : Int) : Int :=
  if h.touchesInflight then c + 1 else c

/-- the deferred inflight.Add(-1) on handler return (identity for handlers
that do not touch the counter). -/
def inflightOnReturn (h : ApiH) (c : Int) : Int :=
  if h.touchesInflight then c - 1 else c

/-- Net effect of one completed api request on the service state: the two
toggle handlers write forceFail; every other handler leaves the state
unchanged (the inflight increment is undone by the deferred decrement). -/
def apiHandlerState : ApiH → ApiState → ApiState
  | .healthzFail, s => { s with forceFail := true }
  | .healthzRecover, s => { s with forceFail := false }
  | _, s => s

/-- Net effect of one completed worker request on the worker state. -/
def workerHandlerState : WorkerH → WorkerState → WorkerState
  | .healthzFail, s => { s with forceFail := true }
  | .healthzRecover, s => { s with forceFail := false }
  | _, s => s

/-- An api-service event: the startup goroutine's ready.Store(true)
(src/svc/api/main.go line 32) or a completed request to one handler. -/
inductive ApiEvent where
  | startupReady
  | req (h : ApiH)

/-- A worker-service event: the warm-up goroutine's ready.Store(true)
(src/pkg/shared/response.go line 169) or a completed request. -/
inductive WorkerEvent where
  | startupReady
  | req (h : WorkerH)

/-- One api event's effect on the service state. -/
def apiStep : ApiEvent → ApiState → ApiState
  | .startupReady, s => { s with ready := true }
  | .req h, s => apiHandlerState h s

/-- One worker event's effect on the worker state. -/
def workerStep : WorkerEvent → WorkerState → WorkerState
  | .startupReady, s => { s with ready := true }
  | .req h, s => workerHandlerState h s

/-- Run a sequence of api events from a state. -/
def apiRun (evs : List ApiEvent) (s : ApiState) : ApiState :=
  evs.foldl (fun t e => apiStep e t) s

/-- Run a sequence of worker events from a state. -/
def workerRun (evs : List WorkerEvent) (s : WorkerState) : WorkerState :=
  evs.foldl (fun t e => workerStep e t) s

/-- Outcome of a shutdown goroutine: the os.Exit code and the total
milliseconds slept before exiting. -/
structure ShutdownResult where
  code : Nat
  sleptMs : Nat
deriving DecidableEq

/-- worker.Run shutdown goroutine (src/pkg/shared/response.go lines 176-183):
sleep a fixed 2 seconds, then os.Exit(0). -/
def workerShutdown : ShutdownResult :=
  { code := 0, sleptMs := 2000 }

/-- The api shutdown drain loop (src/svc/api/main.go lines 45-63):
for inflight.Load() > 0 { if the 10s deadline fired then os.Exit(1) else
sleep 100ms }; os.Exit(0).  f k is the value inflight.Load() returns at the
k-th read; fuel is the number of 100ms sleeps left before the deadline
(10s / 100ms = 100), so the deadline branch fires when fuel reaches 0
while the counter is still positive. -/
def apiDrainLoop (f : Nat → Int) : Nat → Nat → ShutdownResult
  | 0, iter =>
      if f iter ≤ 0 then { code := 0, sleptMs := iter * 100 }
      else { code := 1, sleptMs := iter * 100 }
  | fuel + 1, iter =>
      if f iter ≤ 0 then { code := 0, sleptMs := iter * 100 }
      else apiDrainLoop f fuel (iter + 1)

/-- The api shutdown goroutine (src/svc/api/main.go lines 45-63): drain loop
started with the full 10-second budget. -/
def apiShutdown (f : Nat → Int) : ShutdownResult :=
  apiDrainLoop f 100 0

/-- The non-route inputs an api handler may consult: the request, the
rand.Intn draw, WORKER_URL, the HTTP client, and json.Unmarshal. -/
structure ApiCtx where
  req : Request
  randVal : Int
  workerURL : String
  net : String → Except String Nat
  unmarshalObj : String → Option (List (String × Json))

/-- The non-route inputs a worker handler may consult. -/
structure WorkerCtx where
  req : Request
  apiURL : String
  net : String → Except String Nat

/-- The JSON response an api handler emits, per handler.  GET /env writes the
raw environment map with json.NewEncoder (src/svc/api/main.go lines 193-207):
no shared.Response envelope and no port field, hence none. -/
def apiResponse (port : String) (s : ApiState) (c : ApiCtx) : ApiH → Option Resp
  | .root => some (apiRoot port s c.randVal)
  | .healthz => some (apiHealthz port s.ready s.forceFail c.req)
  | .healthzFail => some (apiHealthzFail port s).2
  | .healthzRecover => some (apiHealthzRecover port s).2
  | .slow => some (apiSlow port)
  | .protectedRoute => some (apiProtected port c.unmarshalObj c.req)
  | .env => none
  | .probe => some (apiProbe port c.workerURL c.net)

/-- The JSON response a worker.Run handler emits, per handler. -/
def workerResponse (port : String) (s : WorkerState) (c : WorkerCtx) : WorkerH → Option Resp
  | .healthz => some (workerHealthz port s.ready s.forceFail c.req)
  | .healthzFail => some (workerHealthzFail port s).2
  | .healthzRecover => some (workerHealthzRecover port s).2
  | .root => some (workerRoot port)
  | .probe => some (workerProbe port c.apiURL c.net)

/-! ## Theorems -/

/-- C1: for every request reaching the /healthz handler of either service,
the handler is a three-branch conditional evaluated in order: if the
readiness flag is false it returns HTTP 503 with status "not_ready"
(whatever the forced-failure flag holds); otherwise, if the forced-failure
flag is true it returns HTTP 503 with status "unhealthy"; otherwise it
returns HTTP 200 with status "healthy". -/
theorem healthz_three_branch (port : String) (ff : Bool) (r : Request) :
    ((apiHealthz port false ff r).httpStatus = 503
      ∧ (apiHealthz port false ff r).status = "not_ready")
  ∧ ((apiHealthz port true true r).httpStatus = 503
      ∧ (apiHealthz port true true r).status = "unhealthy")
  ∧ ((apiHealthz port true false r).httpStatus = 200
      ∧ (apiHealthz port true false r).status = "healthy")
  ∧ ((workerHealthz port false ff r).httpStatus = 503
      ∧ (workerHealthz port false ff r).status = "not_ready")
  ∧ ((workerHealthz port true true r).httpStatus = 503
      ∧ (workerHealthz port true true r).status = "unhealthy")
  ∧ ((workerHealthz port true false r).httpStatus = 200
      ∧ (workerHealthz port true false r).status = "healthy") := by
  cases ff <;> simp [apiHealthz, workerHealthz]

/-- C2 counterexample: the api mux registers /healthz under POST, but the
worker.Run mux does not — its only /healthz route is GET, so a POST /healthz
on the worker is rejected by the router rather than reaching the handler. -/
theorem worker_no_post_healthz :
    ("POST", "/healthz") ∈ apiRoutes ∧ ("POST", "/healthz") ∉ workerRoutes := by
  decide

/-- C2 amended: the api service registers /healthz for both GET and POST;
the worker service registers /healthz only for GET, so on the worker a GET
reaches the health handler but a POST does not. -/
theorem healthz_route_registration :
    ("GET", "/healthz") ∈ apiRoutes ∧ ("POST", "/healthz") ∈ apiRoutes
  ∧ ("GET", "/healthz") ∈ workerRoutes ∧ ("POST", "/healthz") ∉ workerRoutes := by
  decide

/-- C5: in every state of either service, POST /healthz/fail sets the
forced-failure flag to true and POST /healthz/recover sets it to false, each
responding HTTP 200 with status "ok"; fail followed by recover leaves the
flag false whatever it held before, and both toggles are idempotent on the
state. -/
theorem fail_recover_toggle (port : String) (s : ApiState) (t : WorkerState) :
    ((apiHealthzFail port s).1.forceFail = true
      ∧ (apiHealthzFail port s).2.httpStatus = 200
      ∧ (apiHealthzFail port s).2.status = "ok")
  ∧ ((apiHealthzRecover port s).1.forceFail = false
      ∧ (apiHealthzRecover port s).2.httpStatus = 200
      ∧ (apiHealthzRecover port s).2.status = "ok")
  ∧ (apiHealthzRecover port (apiHealthzFail port s).1).1.forceFail = false
  ∧ (apiHealthzFail port (apiHealthzFail port s).1).1 = (apiHealthzFail port s).1
  ∧ (apiHealthzRecover port (apiHealthzRecover port s).1).1 = (apiHealthzRecover port s).1
  ∧ ((workerHealthzFail port t).1.forceFail = true
      ∧ (workerHealthzFail port t).2.httpStatus = 200
      ∧ (workerHealthzFail port t).2.status = "ok")
  ∧ ((workerHealthzRecover port t).1.forceFail = false
      ∧ (workerHealthzRecover port t).2.httpStatus = 200
      ∧ (workerHealthzRecover port t).2.status = "ok")
  ∧ (workerHealthzRecover port (workerHealthzFail port t).1).1.forceFail = false
  ∧ (workerHealthzFail port (workerHealthzFail port t).1).1 = (workerHealthzFail port t).1
  ∧ (workerHealthzRecover port (workerHealthzRecover port t).1).1 = (workerHealthzRecover port t).1 := by
  simp [apiHealthzFail, apiHealthzRecover, workerHealthzFail, workerHealthzRecover]

/-- C10: the /healthz handler of either service is deterministic in the two
flags: with equal readiness and forced-failure values, any two requests —
whatever their method, headers or body — receive the same HTTP status code,
"status" field and "message" field (the timestamp, absent from this model,
is set from the clock). -/
theorem healthz_deterministic (port : String) (rd ff : Bool) (r1 r2 : Request) :
    ((apiHealthz port rd ff r1).httpStatus = (apiHealthz port rd ff r2).httpStatus
      ∧ (apiHealthz port rd ff r1).status = (apiHealthz port rd ff r2).status
      ∧ (apiHealthz port rd ff r1).message = (apiHealthz port rd ff r2).message)
  ∧ ((workerHealthz port rd ff r1).httpStatus = (workerHealthz port rd ff r2).httpStatus
      ∧ (workerHealthz port rd ff r1).status = (workerHealthz port rd ff r2).status
      ∧ (workerHealthz port rd ff r1).message = (workerHealthz port rd ff r2).message) := by
  exact ⟨⟨rfl, rfl, rfl⟩, ⟨rfl, rfl, rfl⟩⟩

/-- C4 counterexample: in the api service (src/svc/api/main.go) the in-flight
counter is bracketed by three handlers — GET /, GET /slow and GET /protected —
not exactly two; in particular the /protected handler also touches it. -/
theorem three_handlers_touch_inflight :
    (apiHandlers.filter ApiH.touchesInflight).length = 3
  ∧ ¬ (apiHandlers.filter ApiH.touchesInflight).length = 2
  ∧ ApiH.touchesInflight ApiH.protectedRoute = true := by
  decide

/-- C4 amended: in the api service exactly three handlers (GET /, GET /slow,
GET /protected) increment the in-flight counter on entry and decrement it via
defer on return — in the earlier variant src/unnamed/part_001 it is exactly
two (GET /, GET /slow) — every other handler leaves the counter unchanged,
and each handler that touches it restores its net value to what it was before
the request. -/
theorem inflight_bracketing (h : ApiH) (c : Int) :
    apiHandlers.filter ApiH.touchesInflight = [ApiH.root, ApiH.slow, ApiH.protectedRoute]
  ∧ apiV0Handlers.filter ApiV0H.touchesInflight = [ApiV0H.root, ApiV0H.slow]
  ∧ inflightOnReturn h (inflightOnEntry h c) = c
  ∧ (h.touchesInflight = true → inflightOnEntry h c = c + 1)
  ∧ (h.touchesInflight = false → inflightOnEntry h c = c ∧ inflightOnReturn h c = c) := by
  refine ⟨by decide, by decide, ?_, ?_, ?_⟩ <;>
    cases h <;> simp [inflightOnEntry, inflightOnReturn, ApiH.touchesInflight]

/-- C4 amended, witness: the /protected handler increments on entry and its
deferred decrement restores the counter; the /env handler never touches it. -/
theorem inflight_bracketing_witness :
    inflightOnEntry ApiH.protectedRoute 5 = 6
  ∧ inflightOnReturn ApiH.protectedRoute (inflightOnEntry ApiH.protectedRoute 5) = 5
  ∧ inflightOnEntry ApiH.env 5 = 5 := by
  refine ⟨(inflight_bracketing ApiH.protectedRoute 5).2.2.2.1 rfl, ?_, ?_⟩
  · exact (inflight_bracketing ApiH.protectedRoute 5).2.2.1
  · exact ((inflight_bracketing ApiH.env 5).2.2.2.2 rfl).1

/-- C7: on either service, GET /probe responds 200 "skipped" when the peer
URL environment variable (WORKER_URL for the api, API_URL for the worker) is
empty; 200 "isolated" when the HTTP GET of the peer URL plus "/healthz"
errors; 200 "NOT_ISOLATED" when that call succeeds — and in every case the
probe handler itself responds HTTP 200. -/
theorem probe_reachability (port url : String) (net : String → Except String Nat)
    (e : String) (code : Nat) :
    ((apiProbe port "" net).httpStatus = 200 ∧ (apiProbe port "" net).status = "skipped")
  ∧ (url ≠ "" → net (url ++ "/healthz") = .error e →
      (apiProbe port url net).httpStatus = 200 ∧ (apiProbe port url net).status = "isolated")
  ∧ (url ≠ "" → net (url ++ "/healthz") = .ok code →
      (apiProbe port url net).httpStatus = 200 ∧ (apiProbe port url net).status = "NOT_ISOLATED")
  ∧ (apiProbe port url net).httpStatus = 200
  ∧ ((workerProbe port "" net).httpStatus = 200 ∧ (workerProbe port "" net).status = "skipped")
  ∧ (url ≠ "" → net (url ++ "/healthz") = .error e →
      (workerProbe port url net).httpStatus = 200 ∧ (workerProbe port url net).status = "isolated")
  ∧ (url ≠ "" → net (url ++ "/healthz") = .ok code →
      (workerProbe port url net).httpStatus = 200 ∧ (workerProbe port url net).status = "NOT_ISOLATED")
  ∧ (workerProbe port url net).httpStatus = 200 := by
  refine ⟨⟨rfl, rfl⟩, ?_, ?_, ?_, ⟨rfl, rfl⟩, ?_, ?_, ?_⟩
  · intro hu hn
    simp [apiProbe, hu, hn]
  · intro hu hn
    simp [apiProbe, hu, hn]
  · by_cases hu : url = ""
    · simp [apiProbe, hu]
    · cases hn : net (url ++ "/healthz") <;> simp [apiProbe, hu, hn]
  · intro hu hn
    simp [workerProbe, hu, hn]
  · intro hu hn
    simp [workerProbe, hu, hn]
  · by_cases hu : url = ""
    · simp [workerProbe, hu]
    · cases hn : net (url ++ "/healthz") <;> simp [workerProbe, hu, hn]

/-- C7 witness: with WORKER_URL/API_URL "http://peer:9090" and a network that
refuses the connection, both probes answer 200 "isolated"; with a network
that answers 503, both answer 200 "NOT_ISOLATED". -/
theorem probe_reachability_witness :
    ((apiProbe "3456" "http://peer:9090" (fun _ => Except.error "connection refused")).status = "isolated"
      ∧ (workerProbe "9090" "http://peer:9090" (fun _ => Except.error "connection refused")).status = "isolated")
  ∧ ((apiProbe "3456" "http://peer:9090" (fun _ => Except.ok 503)).status = "NOT_ISOLATED"
      ∧ (workerProbe "9090" "http://peer:9090" (fun _ => Except.ok 503)).status = "NOT_ISOLATED") := by
  refine ⟨⟨?_, ?_⟩, ?_, ?_⟩
  · exact ((probe_reachability "3456" "http://peer:9090"
      (fun _ => Except.error "connection refused") "connection refused" 0).2.1
      (by decide) rfl).2
  · exact ((probe_reachability "9090" "http://peer:9090"
      (fun _ => Except.error "connection refused") "connection refused" 0).2.2.2.2.2.1
      (by decide) rfl).2
  · exact ((probe_reachability "3456" "http://peer:9090"
      (fun _ => Except.ok 503) "" 503).2.2.1 (by decide) rfl).2
  · exact ((probe_reachability "9090" "http://peer:9090"
      (fun _ => Except.ok 503) "" 503).2.2.2.2.2.2.1 (by decide) rfl).2

/-- C8: on GET /protected, an absent X-Unkey-Principal header reads as the
empty string, and an absent-or-empty header draws HTTP 401 with status
"unauthorized"; a non-empty header that json.Unmarshal rejects draws HTTP 200
whose message carries the raw header string; one that unmarshals draws HTTP
200 with status "authenticated" carrying the parsed principal. -/
theorem protected_header_branches (port : String)
    (um : String → Option (List (String × Json))) (r : Request)
    (fields : List (String × Json)) :
    (r.headers.lookup "X-Unkey-Principal" = none →
      r.getHeader "X-Unkey-Principal" = "")
  ∧ (r.getHeader "X-Unkey-Principal" = "" →
      (apiProtected port um r).httpStatus = 401
      ∧ (apiProtected port um r).status = "unauthorized")
  ∧ (r.getHeader "X-Unkey-Principal" ≠ "" →
      um (r.getHeader "X-Unkey-Principal") = none →
      (apiProtected port um r).httpStatus = 200
      ∧ (apiProtected port um r).message
          = "principal (raw): " ++ r.getHeader "X-Unkey-Principal")
  ∧ (r.getHeader "X-Unkey-Principal" ≠ "" →
      um (r.getHeader "X-Unkey-Principal") = some fields →
      (apiProtected port um r).httpStatus = 200
      ∧ (apiProtected port um r).status = "authenticated"
      ∧ (apiProtected port um r).principal = some (Json.obj fields)) := by
  refine ⟨?_, ?_, ?_, ?_⟩
  · intro hl
    simp [Request.getHeader, hl]
  · intro he
    simp [apiProtected, he]
  · intro he hu
    simp [apiProtected, he, hu]
  · intro he hu
    simp [apiProtected, he, hu]

/-- C8 witness: a request without the header is 401 "unauthorized"; with
header "oops" and a failing unmarshal the message echoes the raw string; with
a header that unmarshals to an object the response is "authenticated". -/
theorem protected_header_branches_witness :
    (apiProtected "3456" (fun _ => none)
      { method := "GET", headers := [], body := "" }).status = "unauthorized"
  ∧ (apiProtected "3456" (fun _ => none)
      { method := "GET", headers := [("X-Unkey-Principal", "oops")], body := "" }).message
      = "principal (raw): oops"
  ∧ (apiProtected "3456" (fun _ => some [("sub", Json.str "key_123")])
      { method := "GET", headers := [("X-Unkey-Principal", "j")], body := "" }).status
      = "authenticated" := by
  refine ⟨?_, ?_, ?_⟩
  · exact ((protected_header_branches "3456" (fun _ => none)
      { method := "GET", headers := [], body := "" } []).2.1 rfl).2
  · exact ((protected_header_branches "3456" (fun _ => none)
      { method := "GET", headers := [("X-Unkey-Principal", "oops")], body := "" } []).2.2.1
      (by decide) rfl).2
  · exact ((protected_header_branches "3456" (fun _ => some [("sub", Json.str "key_123")])
      { method := "GET", headers := [("X-Unkey-Principal", "j")], body := "" }
      [("sub", Json.str "key_123")]).2.2.2 (by decide) rfl).2.1

/-- C9: with PORT empty the api resolves its port to "3456" and the worker to
"9090" (a non-empty PORT is taken verbatim), and every JSON response either
service emits carries the startup port in its "port" field (GET /env, which
dumps the raw environment map with no port field, emits no enveloped
response). -/
theorem port_defaults (envPORT port : String) (s : ApiState) (t : WorkerState)
    (c : ApiCtx) (wc : WorkerCtx) (h : ApiH) (wh : WorkerH) (resp resp' : Resp) :
    apiPort "" = "3456"
  ∧ workerPort "" = "9090"
  ∧ (envPORT ≠ "" → apiPort envPORT = envPORT ∧ workerPort envPORT = envPORT)
  ∧ (apiResponse port s c h = some resp → resp.port = port)
  ∧ (workerResponse port t wc wh = some resp' → resp'.port = port) := by
  refine ⟨rfl, rfl, ?_, ?_, ?_⟩
  · intro he
    simp [apiPort, workerPort, he]
  · intro hr
    cases h <;>
      simp only [apiResponse, Option.some.injEq, reduceCtorEq] at hr <;>
      first
      | (subst hr
         simp [apiRoot, apiHealthzFail, apiHealthzRecover, apiSlow]
         done)
      | skip
    case healthz =>
      subst hr
      unfold apiHealthz
      by_cases h1 : s.ready <;> by_cases h2 : s.forceFail <;> simp [h1, h2]
    case protectedRoute =>
      subst hr
      unfold apiProtected
      by_cases h1 : c.req.getHeader "X-Unkey-Principal" = ""
      · simp [h1]
      · cases hu : c.unmarshalObj (c.req.getHeader "X-Unkey-Principal") <;> simp [h1, hu]
    case probe =>
      subst hr
      unfold apiProbe
      by_cases h1 : c.workerURL = ""
      · simp [h1]
      · cases hn : c.net (c.workerURL ++ "/healthz") <;> simp [h1, hn]
  · intro hr
    cases wh <;> simp only [workerResponse, Option.some.injEq] at hr
    case healthz =>
      subst hr
      unfold workerHealthz
      by_cases h1 : t.ready <;> by_cases h2 : t.forceFail <;> simp [h1, h2]
    case healthzFail =>
      subst hr
      simp [workerHealthzFail]
    case healthzRecover =>
      subst hr
      simp [workerHealthzRecover]
    case root =>
      subst hr
      simp [workerRoot]
    case probe =>
      subst hr
      unfold workerProbe
      by_cases h1 : wc.apiURL = ""
      · simp [h1]
      · cases hn : wc.net (wc.apiURL ++ "/healthz") <;> simp [h1, hn]

/-- C9 witness: with PORT empty the api serves on "3456" and its /healthz
response carries port "3456"; the worker likewise carries "9090". -/
theorem port_defaults_witness :
    apiPort "" = "3456"
  ∧ (apiHealthz (apiPort "") true false
      { method := "GET", headers := [], body := "" }).port = "3456"
  ∧ (workerHealthz (workerPort "") true false
      { method := "GET", headers := [], body := "" }).port = "9090" := by
  have := port_defaults "8080" (apiPort "") { ready := true, forceFail := false, inflight := 0 }
    { ready := true, forceFail := false }
    { req := { method := "GET", headers := [], body := "" }, randVal := 0, workerURL := ""
      net := fun _ => Except.error "x", unmarshalObj := fun _ => none }
    { req := { method := "GET", headers := [], body := "" }, apiURL := ""
      net := fun _ => Except.error "x" }
    ApiH.healthz WorkerH.healthz
    (apiHealthz (apiPort "") true false { method := "GET", headers := [], body := "" })
    (workerHealthz "9090" true false { method := "GET", headers := [], body := "" })
  refine ⟨this.1, ?_, ?_⟩
  · have h4 := this.2.2.2.1 rfl
    simpa [this.1] using h4
  · have h5 := (port_defaults "8080" (workerPort "")
      { ready := true, forceFail := false, inflight := 0 } { ready := true, forceFail := false }
      { req := { method := "GET", headers := [], body := "" }, randVal := 0, workerURL := ""
        net := fun _ => Except.error "x", unmarshalObj := fun _ => none }
      { req := { method := "GET", headers := [], body := "" }, apiURL := ""
        net := fun _ => Except.error "x" }
      ApiH.healthz WorkerH.healthz
      (apiHealthz "3456" true false { method := "GET", headers := [], body := "" })
      (workerHealthz (workerPort "") true false
        { method := "GET", headers := [], body := "" })).2.2.2.2 rfl
    simpa [workerPort] using h5

/-- Helper: whatever the fuel, the drain loop returns at once with code 0
when the first counter read is already non-positive. -/
theorem apiDrainLoop_first_nonpos (f : Nat → Int) (fuel iter : Nat)
    (hf : f iter ≤ 0) :
    apiDrainLoop f fuel iter = { code := 0, sleptMs := iter * 100 } := by
  cases fuel <;> simp [apiDrainLoop, hf]

/-- Helper: with the counter positive at every read, the drain loop burns its
whole fuel and exits with code 1 at the deadline. -/
theorem apiDrainLoop_all_pos (f : Nat → Int) (hf : ∀ k, 0 < f k) :
    ∀ fuel iter, apiDrainLoop f fuel iter = { code := 1, sleptMs := (iter + fuel) * 100 } := by
  intro fuel
  induction fuel with
  | zero =>
      intro iter
      simp [apiDrainLoop, not_le.mpr (hf iter)]
  | succ n ih =>
      intro iter
      have h1 : ¬ f iter ≤ 0 := not_le.mpr (hf iter)
      have h2 := ih (iter + 1)
      simp only [apiDrainLoop, h1, if_false]
      rw [h2]
      have : iter + 1 + n = iter + (n + 1) := by omega
      rw [this]

/-- Helper: the drain loop exits with code 0 or code 1. -/
theorem apiDrainLoop_code_cases (f : Nat → Int) :
    ∀ fuel iter, (apiDrainLoop f fuel iter).code = 0 ∨ (apiDrainLoop f fuel iter).code = 1 := by
  intro fuel
  induction fuel with
  | zero =>
      intro iter
      by_cases hf : f iter ≤ 0 <;> simp [apiDrainLoop, hf]
  | succ n ih =>
      intro iter
      by_cases hf : f iter ≤ 0
      · simp [apiDrainLoop, hf]
      · simpa [apiDrainLoop, hf] using ih (iter + 1)

/-- C3 counterexample: the api shutdown goroutine does not sleep a fixed
duration — with no in-flight requests it exits after 0 ms of sleeping, while
with one request in flight at the first read it sleeps 100 ms, and the
worker's goroutine sleeps 2000 ms; so the time slept before exiting is not a
fixed duration across the two services' shutdowns. -/
theorem api_shutdown_not_fixed_sleep :
    (apiShutdown fun _ => 0).sleptMs = 0
  ∧ (apiShutdown fun n => if n = 0 then 1 else 0).sleptMs = 100
  ∧ workerShutdown.sleptMs = 2000 := by
  refine ⟨?_, ?_, rfl⟩ <;> decide

/-- C3 amended: on a shutdown signal the worker goroutine sleeps a fixed 2
seconds then exits with code 0, while the api goroutine instead polls the
in-flight counter every 100 ms: it exits with code 0 as soon as a read finds
the counter non-positive (immediately, with no sleep, when the first read
does), exits with code 1 once the 10-second deadline fires with requests
still in flight, and in every case exits with code 0 or 1. -/
theorem shutdown_drain_behaviour (f : Nat → Int) :
    workerShutdown = { code := 0, sleptMs := 2000 }
  ∧ (f 0 ≤ 0 → apiShutdown f = { code := 0, sleptMs := 0 })
  ∧ ((∀ k, 0 < f k) → apiShutdown f = { code := 1, sleptMs := 10000 })
  ∧ ((apiShutdown f).code = 0 ∨ (apiShutdown f).code = 1) := by
  refine ⟨rfl, ?_, ?_, apiDrainLoop_code_cases f 100 0⟩
  · intro h0
    simpa using apiDrainLoop_first_nonpos f 100 0 h0
  · intro hall
    simpa using apiDrainLoop_all_pos f hall 100 0

/-- C3 amended, witness: with the counter reading 0 the api shutdown exits at
once with code 0 and no sleep; with it pinned at 1 it exits with code 1 at
the 10-second deadline. -/
theorem shutdown_drain_behaviour_witness :
    apiShutdown (fun _ => 0) = { code := 0, sleptMs := 0 }
  ∧ apiShutdown (fun _ => 1) = { code := 1, sleptMs := 10000 } := by
  exact ⟨(shutdown_drain_behaviour fun _ => 0).2.1 (by norm_num),
         (shutdown_drain_behaviour fun _ => 1).2.2.1 (fun k => by norm_num)⟩

/-- Helper: one api event preserves ready = true. -/
theorem apiStep_preserves_ready (e : ApiEvent) (s : ApiState) (hs : s.ready = true) :
    (apiStep e s).ready = true := by
  cases e with
  | startupReady => simp [apiStep]
  | req h => cases h <;> simp [apiStep, apiHandlerState, hs]

/-- Helper: api event sequences preserve ready = true. -/
theorem apiRun_preserves_ready (evs : List ApiEvent) (s : ApiState) (hs : s.ready = true) :
    (apiRun evs s).ready = true := by
  induction evs generalizing s with
  | nil => exact hs
  | cons e tl ih => exact ih (apiStep e s) (apiStep_preserves_ready e s hs)

/-- Helper: one worker event preserves ready = true. -/
theorem workerStep_preserves_ready (e : WorkerEvent) (t : WorkerState) (ht : t.ready = true) :
    (workerStep e t).ready = true := by
  cases e with
  | startupReady => simp [workerStep]
  | req h => cases h <;> simp [workerStep, workerHandlerState, ht]

/-- Helper: worker event sequences preserve ready = true. -/
theorem workerRun_preserves_ready (evs : List WorkerEvent) (t : WorkerState) (ht : t.ready = true) :
    (workerRun evs t).ready = true := by
  induction evs generalizing t with
  | nil => exact ht
  | cons e tl ih => exact ih (workerStep e t) (workerStep_preserves_ready e t ht)

/-- C6: in both services no handler writes the readiness flag — the only
event that changes it is the startup goroutine's store, which sets it to
true — so from any state with the flag true, every reachable state keeps it
true, and the /healthz handler never again takes the "not_ready" branch. -/
theorem ready_set_once_monotone (s : ApiState) (t : WorkerState)
    (evs : List ApiEvent) (wevs : List WorkerEvent)
    (port : String) (ff : Bool) (r : Request) :
    (∀ h : ApiH, (apiHandlerState h s).ready = s.ready)
  ∧ (∀ e : ApiEvent, (apiStep e s).ready = s.ready
      ∨ (e = ApiEvent.startupReady ∧ (apiStep e s).ready = true))
  ∧ (s.ready = true → (apiRun evs s).ready = true)
  ∧ (apiHealthz port true ff r).status ≠ "not_ready"
  ∧ (∀ h : WorkerH, (workerHandlerState h t).ready = t.ready)
  ∧ (∀ e : WorkerEvent, (workerStep e t).ready = t.ready
      ∨ (e = WorkerEvent.startupReady ∧ (workerStep e t).ready = true))
  ∧ (t.ready = true → (workerRun wevs t).ready = true)
  ∧ (workerHealthz port true ff r).status ≠ "not_ready" := by
  refine ⟨?_, ?_, apiRun_preserves_ready evs s, ?_, ?_, ?_,
    workerRun_preserves_ready wevs t, ?_⟩
  · intro h
    cases h <;> simp [apiHandlerState]
  · intro e
    cases e with
    | startupReady => exact Or.inr ⟨rfl, by simp [apiStep]⟩
    | req h => exact Or.inl (by cases h <;> simp [apiStep, apiHandlerState])
  · cases ff <;> simp [apiHealthz]
  · intro h
    cases h <;> simp [workerHandlerState]
  · intro e
    cases e with
    | startupReady => exact Or.inr ⟨rfl, by simp [workerStep]⟩
    | req h => exact Or.inl (by cases h <;> simp [workerStep, workerHandlerState])
  · cases ff <;> simp [workerHealthz]

/-- C6 witness: from a ready state, a fail/recover request pair leaves the
api ready, and a fail request leaves the worker ready. -/
theorem ready_set_once_monotone_witness :
    (apiRun [ApiEvent.req ApiH.healthzFail, ApiEvent.req ApiH.healthzRecover]
      { ready := true, forceFail := false, inflight := 0 }).ready = true
  ∧ (workerRun [WorkerEvent.req WorkerH.healthzFail]
      { ready := true, forceFail := false }).ready = true := by
  have h := ready_set_once_monotone
    { ready := true, forceFail := false, inflight := 0 }
    { ready := true, forceFail := false }
    [ApiEvent.req ApiH.healthzFail, ApiEvent.req ApiH.healthzRecover]
    [WorkerEvent.req WorkerH.healthzFail]
    "3456" false { method := "GET", headers := [], body := "" }
  exact ⟨h.2.2.1 rfl, h.2.2.2.2.2.2.1 rfl⟩

end MonoRepo
